import Mathlib

/-!
Verification of the AI Response Resolution & Caching Layer of the tabletalk
repository. The definitions below are a shallow embedding of the TypeScript
source files `src/utils/aiCache.ts`, `src/utils/aiTemplates.ts`,
`src/services/groqApi.ts` and `src/screens/RestaurantAssistantScreen.tsx`.
Asynchronous device storage (AsyncStorage) is modelled as an explicit
association list threaded through the functions; upstream HTTP providers are
modelled as result oracles; JavaScript exceptions are modelled as explicit
result constructors; JavaScript string truthiness (null / empty string are
falsy) is modelled by the `truthy` predicate.
-/

namespace TableTalk

/-! ### JavaScript string primitives

`String.prototype.includes`, `toLowerCase` and `trim` are modelled over the
underlying character list so that every definition reduces inside the kernel.
-/

/-- Model of `String.prototype.includes`: `sub` occurs contiguously in `s`. -/
def containsSub (sub : List Char) : List Char → Bool
  | [] => sub.isEmpty
  | c :: rest => sub.isPrefixOf (c :: rest) || containsSub sub rest

/-- `s.includes(pat)` on strings. -/
def strIncludes (s pat : String) : Bool :=
  containsSub pat.data s.data

/-- Model of `String.prototype.toLowerCase` (ASCII case folding; every
keyword the code compares against is ASCII). -/
def jsToLower (s : String) : String :=
  ⟨s.data.map Char.toLower⟩

/-- Model of `String.prototype.trim`. -/
def jsTrim (s : String) : String :=
  ⟨((s.data.dropWhile Char.isWhitespace).reverse.dropWhile Char.isWhitespace).reverse⟩

/-- JavaScript truthiness of a `string | null` value: `null` and the empty
string are falsy.  This is the test performed by `if (cached)` /
`if (!inviteCopy)` in `aiTemplates.ts`. -/
def truthy : Option String → Bool
  | none => false
  | some s => if s = "" then false else true

/-! ### `src/utils/aiCache.ts` -/

/-- `CACHE_PREFIX` from `aiCache.ts`. -/
def CACHE_PREFIX : String := "@tabletalk:ai_cache:"

/-- `CACHE_EXPIRY_MS = 24 * 60 * 60 * 1000` (24 hours), from `aiCache.ts`. -/
def CACHE_EXPIRY_MS : Nat := 24 * 60 * 60 * 1000

/-- The `CachedResponse` record persisted by `aiCache.ts`
(`{ value, timestamp }`); timestamps are milliseconds (`Date.now()`). -/
structure CachedResponse where
  value : String
  timestamp : Nat
deriving DecidableEq, Repr

/-- AsyncStorage modelled as an association list from keys to parsed
`CachedResponse` records. -/
abbrev Store := List (String × CachedResponse)

/-- `AsyncStorage.getItem`. -/
def storeGet : Store → String → Option CachedResponse
  | [], _ => none
  | (k2, v) :: rest, k => if k2 = k then some v else storeGet rest k

/-- `AsyncStorage.removeItem`. -/
def storeRemove : Store → String → Store
  | [], _ => []
  | (k2, v) :: rest, k =>
      if k2 = k then storeRemove rest k else (k2, v) :: storeRemove rest k

/-- `AsyncStorage.setItem` (unconditional overwrite of the key). -/
def storeSet (s : Store) (k : String) (v : CachedResponse) : Store :=
  (k, v) :: storeRemove s k

/-- `getCacheKey` from `aiCache.ts`. -/
def getCacheKey (restaurantId queryType : String) : String :=
  CACHE_PREFIX ++ restaurantId ++ ":" ++ queryType

/-- `getCachedAIResponse` from `aiCache.ts`.  Returns the cached value (or
`none`) together with the storage state after the call: an entry whose age
`now - timestamp` exceeds `CACHE_EXPIRY_MS` is removed and reported absent;
expiry is enforced on this read, there is no background sweep in the code. -/
def getCachedAIResponse (store : Store) (restaurantId queryType : String)
    (now : Nat) : Option String × Store :=
  let key := getCacheKey restaurantId queryType
  match storeGet store key with
  | none => (none, store)
  | some parsed =>
      if now - parsed.timestamp > CACHE_EXPIRY_MS then
        (none, storeRemove store key)
      else
        (some parsed.value, store)

/-- `cacheAIResponse` from `aiCache.ts`.  `writeOk = false` models a failing
`AsyncStorage.setItem`; the `catch` block swallows the failure (only logging
it), so the function always returns a storage state and never raises. -/
def cacheAIResponse (store : Store) (restaurantId queryType value : String)
    (writeOk : Bool) (now : Nat) : Store :=
  if writeOk then
    storeSet store (getCacheKey restaurantId queryType) ⟨value, now⟩
  else
    store

/-! ### Data model (`src/services/types.ts`, `src/utils/storage.ts`)

Only the fields the resolution layer reads are embedded. -/

/-- `UserPreferences` from `storage.ts`. -/
structure UserPreferences where
  cuisines : List String
  budget : List String
  dietary : List String
deriving DecidableEq, Repr

/-- `YelpBusinessCategory` (the TS interface also carries an `alias` field,
which no code in the resolution layer reads). -/
structure YelpCategory where
  title : String
deriving DecidableEq, Repr

/-- The `Ambience` attribute record (`attributes?.Ambience` cast to
`Record<string, boolean>`); a key absent in the JS object reads as a falsy
`undefined`, which the `Bool` fields model. -/
structure Ambience where
  lively : Bool
  casual : Bool
  romantic : Bool
deriving DecidableEq, Repr

/-- The two location fields the assistant screen reads. -/
structure YelpLocation where
  city : String
  formatted_address : String
deriving DecidableEq, Repr

/-- `YelpBusiness`, restricted to the fields read by the resolution layer.
`rating` is a JS number; it is embedded as `Nat` because no claim depends on
fractional ratings (it only feeds the system-prompt text). -/
structure YelpBusiness where
  id : String
  name : String
  price : Option String
  rating : Nat
  categories : List YelpCategory
  ambience : Option Ambience
  location : YelpLocation
deriving DecidableEq, Repr

/-- Result of one upstream provider call, decoded at the client boundary:
`ok text` is a resolved promise, `err` a rejected one. -/
inductive ProviderResult where
  | ok (text : String)
  | err
deriving DecidableEq, Repr

/-! ### `src/utils/aiTemplates.ts`

Each `generate*` function takes the provider outcome it would observe (the
result of the corresponding `generate*AI` call from `yelpApi.ts`), a
`writeOk` flag for the cache write, the current time and the storage state,
and returns `(value, storage after the call, number of provider calls
issued)`. -/

/-- `generateWhyThisTableFallback` from `aiTemplates.ts`. -/
def generateWhyThisTableFallback (restaurant : YelpBusiness)
    (preferences : Option UserPreferences) : String :=
  match preferences with
  | none => "Based on your preferences"
  | some prefs =>
      -- categories[0]?.title.toLowerCase() || ''
      let restaurantCuisine : String :=
        (restaurant.categories.head?.map (fun c => jsToLower c.title)).getD ""
      let cuisineMatches : String → Bool := fun c =>
        strIncludes restaurantCuisine (jsToLower c)
          || strIncludes (jsToLower c) restaurantCuisine
      let cuisineReasons : List String :=
        if prefs.cuisines.length > 0 then
          match prefs.cuisines.find? cuisineMatches with
          | some matchedCuisine => [ "you picked " ++ matchedCuisine]
          | none => []
        else []
      let ambienceReasons : List String :=
        match restaurant.ambience with
        | some amb =>
            if amb.lively then [ "lively"]
            else if amb.casual then [ "casual"]
            else if amb.romantic then [ "romantic"]
            else []
        | none => []
      let budgetReasons : List String :=
        match restaurant.price with
        | some price =>
            -- `preferences.budget.length > 0 && restaurant.price` (truthy)
            if prefs.budget.length > 0 ∧ price ≠ "" then
              if price ∈ prefs.budget then [ "$" ++ toString price.length]
              else []
            else []
        | none => []
      let reasons := cuisineReasons ++ ambienceReasons ++ budgetReasons
      if reasons.length > 0 then
        "Queued because " ++ String.intercalate " + " (reasons.take 2)
      else
        "Based on your preferences"

/-- `generateWhyThisTable` from `aiTemplates.ts`.  `providerResult` is the
outcome of the `generateWhyThisTableAI` call (issued only on a cache miss);
its `catch` block falls back to the deterministic template. -/
def generateWhyThisTable (restaurant : YelpBusiness)
    (preferences : Option UserPreferences) (providerResult : ProviderResult)
    (writeOk : Bool) (now : Nat) (store : Store) : String × Store × Nat :=
  match preferences with
  | none => ( "Based on your preferences", store, 0)
  | some _ =>
      let cacheKey := "why_this_table"
      let res := getCachedAIResponse store restaurant.id cacheKey now
      if truthy res.1 then
        (res.1.getD "", res.2, 0)
      else
        match providerResult with
        | .ok aiResponse =>
            (aiResponse,
             cacheAIResponse res.2 restaurant.id cacheKey aiResponse writeOk now,
             1)
        | .err =>
            (generateWhyThisTableFallback restaurant preferences, res.2, 1)

/-- The record returned by `generateTableStarter`. -/
structure TableStarter where
  timeWindow : List String
  vibe : List String
  inviteCopy : String
deriving DecidableEq, Repr

/-- `generateTableStarter` from `aiTemplates.ts` (its `preferences` argument
is unused in the source as well).  `providerResult` is the outcome of the
`generateInviteCopyAI` call, issued only when the cached invite copy is
falsy. -/
def generateTableStarter (restaurant : YelpBusiness)
    (_preferences : Option UserPreferences) (providerResult : ProviderResult)
    (writeOk : Bool) (now : Nat) (store : Store) : TableStarter × Store × Nat :=
  let timeWindows := [ "Tonight", "This week", "Weekend"]
  let vibes := [ "Quick bite", "Drinks", "Dinner"]
  let inviteCopyCacheKey := "table_starter_invite"
  let res := getCachedAIResponse store restaurant.id inviteCopyCacheKey now
  if truthy res.1 then
    (⟨timeWindows, vibes, res.1.getD ""⟩, res.2, 0)
  else
    match providerResult with
    | .ok inviteCopy =>
        (⟨timeWindows, vibes, inviteCopy⟩,
         cacheAIResponse res.2 restaurant.id inviteCopyCacheKey inviteCopy
           writeOk now,
         1)
    | .err =>
        (⟨timeWindows, vibes,
          "Want to try " ++ restaurant.name ++ "? Let\x27s make it happen!"⟩,
         res.2, 1)

/-- The plan-copilot action union. -/
inductive PlanAction where
  | suggestTimes
  | draftInvite
  | makeGroupFriendly
deriving DecidableEq, Repr

/-- The string value of each action literal. -/
def planActionKey : PlanAction → String
  | .suggestTimes => "suggest-times"
  | .draftInvite => "draft-invite"
  | .makeGroupFriendly => "make-group-friendly"

/-- `timeWindow` values of a plan draft. -/
inductive TimeWindow where
  | tonight
  | thisWeek
  | weekend
deriving DecidableEq, Repr

/-- `vibe` values of a plan draft. -/
inductive Vibe where
  | quickBite
  | drinks
  | dinner
deriving DecidableEq, Repr

/-- The `currentPlan` draft argument (both fields optional). -/
structure CurrentPlan where
  timeWindow : Option TimeWindow
  vibe : Option Vibe
deriving DecidableEq, Repr

/-- `generatePlanCopilotFallback` from `aiTemplates.ts`.  The TS `default`
branch is unreachable because the action union is closed, which the
inductive `PlanAction` makes structural. -/
def generatePlanCopilotFallback (action : PlanAction)
    (restaurant : YelpBusiness) (currentPlan : Option CurrentPlan) : String :=
  match action with
  | .suggestTimes => "How about this week or weekend?"
  | .draftInvite => "Let\x27s grab " ++ restaurant.name ++ " - who\x27s in?"
  | .makeGroupFriendly =>
      -- `currentPlan?.vibe === 'quickBite'`
      if currentPlan.bind CurrentPlan.vibe = some Vibe.quickBite then
        "Perfect for groups - quick and casual"
      else
        "Great for groups - spacious and welcoming"

/-- `generatePlanCopilot` from `aiTemplates.ts`; `providerResult` is the
outcome of the `generatePlanCopilotAI` call, issued only when the cached
value is falsy. -/
def generatePlanCopilot (action : PlanAction) (restaurant : YelpBusiness)
    (currentPlan : Option CurrentPlan) (providerResult : ProviderResult)
    (writeOk : Bool) (now : Nat) (store : Store) : String × Store × Nat :=
  let cacheKey := "plan_copilot_" ++ planActionKey action
  let res := getCachedAIResponse store restaurant.id cacheKey now
  if truthy res.1 then
    (res.1.getD "", res.2, 0)
  else
    match providerResult with
    | .ok aiResponse =>
        (aiResponse,
         cacheAIResponse res.2 restaurant.id cacheKey aiResponse writeOk now,
         1)
    | .err =>
        (generatePlanCopilotFallback action restaurant currentPlan, res.2, 1)

/-! ### `src/services/groqApi.ts` -/

/-- Message roles of the Groq chat payload. -/
inductive GroqRole where
  | system
  | user
  | assistant
deriving DecidableEq, Repr

/-- `GroqMessage` from `groqApi.ts`. -/
structure GroqMessage where
  role : GroqRole
  content : String
deriving DecidableEq, Repr

/-- `factualKeywords` from `chatWithRestaurant` in `groqApi.ts`. -/
def factualKeywords : List String :=
  [ "hours", "open", "close", "menu", "reservation", "phone", "address",
    "dietary", "vegetarian", "vegan", "gluten"]

/-- `needsYelpData` from `chatWithRestaurant`: case-insensitive substring
match of the question against the fixed keyword list. -/
def needsYelpData (userQuestion : String) : Bool :=
  factualKeywords.any (fun keyword => strIncludes (jsToLower userQuestion) keyword)

/-- The spec names this boolean `classify : question → FACTUAL |
CONVERSATIONAL`; in the code it is the inline `needsYelpData` /
`shouldUseYelp` flag. -/
inductive Classification where
  | FACTUAL
  | CONVERSATIONAL
deriving DecidableEq, Repr

/-- The classification function, as realised by `needsYelpData`. -/
def classify (question : String) : Classification :=
  if needsYelpData question then .FACTUAL else .CONVERSATIONAL

/-- The `restaurantData` argument of `chatWithRestaurant` (all fields
optional; a JS-falsy field — absent, empty string, or `0` rating — is
omitted from the system prompt by `.filter(Boolean)`). -/
structure RestaurantData where
  cuisine : Option String
  price : Option String
  rating : Option Nat
  location : Option String
deriving DecidableEq, Repr

/-- The `restaurantContext` system prompt built in `chatWithRestaurant`:
conditional parts (and one literal empty string) joined with
`.filter(Boolean).join(' ')`. -/
def restaurantContext (restaurantName : String) (d : RestaurantData) : String :=
  let optPart : Option String → (String → String) → String := fun o f =>
    match o with
    | some s => if s = "" then "" else f s
    | none => ""
  let parts : List String :=
    [ "You are a helpful assistant for " ++ restaurantName ++ ".",
      optPart d.cuisine (fun c => "It\x27s a " ++ c ++ " restaurant."),
      optPart d.price (fun p => "Price range: " ++ p ++ "."),
      (match d.rating with
       | some r => if r = 0 then "" else "Rating: " ++ toString r ++ "/5."
       | none => ""),
      optPart d.location (fun l => "Location: " ++ l ++ "."),
      "",
      "Answer questions about the restaurant in a friendly, helpful way.",
      "If asked about specific facts (hours, menu items, reservations), mention that you can help find that information.",
      "Keep responses concise (1-3 sentences) and conversational."]
  String.intercalate " " (parts.filter (fun s => s ≠ ""))

/-- `chatWithGroq` from `groqApi.ts`, over an oracle giving
`choices[0].message.content` of the HTTP response (or a failure): the client
trims the content. -/
def chatWithGroq (httpContent : ProviderResult) : ProviderResult :=
  match httpContent with
  | .ok content => .ok (jsTrim content)
  | .err => .err

/-- One provider call issued during a chat turn, with the exact payload:
`groq` carries the messages array sent to the primary provider, `yelp` the
query string sent to the secondary (facts) provider. -/
inductive ProviderCall where
  | groq (messages : List GroqMessage)
  | yelp (query : String)
deriving DecidableEq, Repr

/-- Result of `chatWithRestaurant`: a resolved `{response, shouldUseYelp}`
pair or the thrown error message. -/
inductive ChatResult where
  | ok (response : String) (shouldUseYelp : Bool)
  | thrown (message : String)
deriving DecidableEq, Repr

/-- `chatWithRestaurant` from `groqApi.ts`.  `groqHttp` is the primary
provider oracle (content of the HTTP response), `yelp` the secondary
(facts) provider oracle keyed by the query string sent to it
(`askBusinessQuestion` from `yelpApi.ts`, whose `response.response.text` the
oracle returns).  Also returns the list of provider calls issued. -/
def chatWithRestaurant (restaurantName : String)
    (restaurantData : RestaurantData) (userQuestion : String)
    (conversationHistory : List GroqMessage) (groqHttp : ProviderResult)
    (yelp : String → ProviderResult) : ChatResult × List ProviderCall :=
  let messages : List GroqMessage :=
    ⟨.system, restaurantContext restaurantName restaurantData⟩ ::
      (conversationHistory ++ [⟨.user, userQuestion⟩])
  match chatWithGroq groqHttp with
  | .ok groqResponse =>
      (.ok groqResponse (needsYelpData userQuestion), [.groq messages])
  | .err =>
      let prompt := "About " ++ restaurantName ++ ": " ++ userQuestion
      match yelp prompt with
      | .ok text => (.ok text true, [.groq messages, .yelp prompt])
      | .err =>
          (.thrown "Unable to get response. Please try again.",
           [.groq messages, .yelp prompt])

/-- `getRestaurantFacts` from `groqApi.ts` (the latitude/longitude arguments
only ride along into the external API's user context and are omitted from
the embedding). -/
def getRestaurantFacts (restaurantName question : String)
    (yelp : String → ProviderResult) : ProviderResult × ProviderCall :=
  let prompt := "About " ++ restaurantName ++ ": " ++ question
  (yelp prompt, .yelp prompt)

/-! ### `src/screens/RestaurantAssistantScreen.tsx` -/

/-- UI chat message roles. -/
inductive ChatRole where
  | user
  | assistant
deriving DecidableEq, Repr

/-- `ChatMessage` from the assistant screen (`timestamp: new Date()` is
embedded as the millisecond clock value). -/
structure ChatMessage where
  id : String
  role : ChatRole
  text : String
  timestamp : Nat
deriving DecidableEq, Repr

/-- The persisted conversation record
(`{ history, messages, timestamp }`) written by `saveConversationHistory`. -/
structure ConversationRecord where
  history : List GroqMessage
  messages : List ChatMessage
  timestamp : Nat
deriving DecidableEq, Repr

/-- The synthetic welcome message seeded by `initializeChat`. -/
def welcomeMessage (restaurantName : String) (now : Nat) : ChatMessage :=
  ⟨ "welcome", .assistant,
    "Hi! I\x27m here to help you plan your visit to " ++ restaurantName ++
      ". What would you like to know?",
    now⟩

/-- The in-memory screen state (`messages`, `conversationHistory`) together
with the persisted record under the restaurant's chat-storage key. -/
structure ScreenState where
  messages : List ChatMessage
  conversationHistory : List GroqMessage
  persisted : Option ConversationRecord
deriving DecidableEq, Repr

/-- `initializeChat` plus `loadConversationHistory` from the assistant
screen: hydrate state from the stored record; seed the welcome message
exactly when the load returned no messages (`!stored || stored.length ===
0`); `conversationHistory` is always hydrated from a present record. -/
def initializeChat (stored : Option ConversationRecord)
    (restaurantName : String) (now : Nat) : ScreenState :=
  match stored with
  | none => ⟨[welcomeMessage restaurantName now], [], none⟩
  | some record =>
      if record.messages.length > 0 then
        ⟨record.messages, record.history, some record⟩
      else
        ⟨[welcomeMessage restaurantName now], record.history, some record⟩

/-- The `restaurantData` object built inside `handleSendMessage`
(`restaurant.price || undefined`, `formatted_address || location.city`). -/
def restaurantDataOf (r : YelpBusiness) : RestaurantData :=
  { cuisine := r.categories.head?.map YelpCategory.title
  , price :=
      match r.price with
      | some p => if p = "" then none else some p
      | none => none
  , rating := some r.rating
  , location :=
      some (if r.location.formatted_address = "" then r.location.city
            else r.location.formatted_address) }

/-- The static error message appended when both providers fail. -/
def errorChatMessage (now : Nat) : ChatMessage :=
  ⟨toString (now + 1), .assistant,
   "Sorry, I encountered an error. Please try again.", now⟩

/-- `handleSendMessage` from the assistant screen.  `now` stands for
`Date.now()`; `persistOk = false` models a failing
`saveConversationHistory`, which is caught and only logged.  Returns the new
screen state and the provider calls issued during the turn. -/
def handleSendMessage (st : ScreenState) (restaurant : YelpBusiness)
    (inputText : String) (groqHttp : ProviderResult)
    (yelp : String → ProviderResult) (persistOk : Bool) (now : Nat) :
    ScreenState × List ProviderCall :=
  if jsTrim inputText = "" then (st, [])
  else
    let question := jsTrim inputText
    let userMessage : ChatMessage := ⟨toString now, .user, question, now⟩
    let messages1 := st.messages ++ [userMessage]
    let updatedHistory := st.conversationHistory ++ [⟨.user, question⟩]
    let chatOut := chatWithRestaurant restaurant.name (restaurantDataOf restaurant)
        question st.conversationHistory groqHttp yelp
    match chatOut.1 with
    | .thrown _ =>
        (⟨messages1 ++ [errorChatMessage now], st.conversationHistory,
          st.persisted⟩,
         chatOut.2)
    | .ok response shouldUseYelp =>
        let factsOut : Option (ProviderResult × ProviderCall) :=
          if shouldUseYelp then
            some (getRestaurantFacts restaurant.name question yelp)
          else none
        let finalResponse :=
          match factsOut with
          | some (.ok yelpFacts, _) => yelpFacts
          | some (.err, _) => response
          | none => response
        let assistantMessage : ChatMessage :=
          ⟨toString (now + 1), .assistant, finalResponse, now⟩
        let newHistory := updatedHistory ++ [⟨.assistant, finalResponse⟩]
        let newMessages := messages1 ++ [assistantMessage]
        let newPersisted :=
          if persistOk then some (⟨newHistory, newMessages, now⟩ : ConversationRecord)
          else st.persisted
        (⟨newMessages, newHistory, newPersisted⟩,
         chatOut.2 ++ (match factsOut with
                       | some (_, c) => [c]
                       | none => []))

/-- The final assistant text of a successful turn, as computed inside
`handleSendMessage`: the secondary (facts) provider supersedes the trimmed
primary response exactly when the question classifies as factual and the
secondary call succeeds. -/
def turnFinalText (r : YelpBusiness) (question groqContent : String)
    (yelp : String → ProviderResult) : String :=
  if needsYelpData question then
    match yelp ( "About " ++ r.name ++ ": " ++ question) with
    | .ok yelpFacts => yelpFacts
    | .err => jsTrim groqContent
  else jsTrim groqContent

/-! ### Helper lemmas and sample data -/

/-- Removing a key makes it absent. -/
theorem storeGet_storeRemove (s : Store) (k : String) :
    storeGet (storeRemove s k) k = none := by
  induction s with
  | nil => rfl
  | cons p rest ih =>
      obtain ⟨k2, v⟩ := p
      by_cases h : k2 = k
      · simpa [storeRemove, h] using ih
      · simp [storeRemove, storeGet, h, ih]

/-- Setting a key makes it present with the stored record. -/
theorem storeGet_storeSet_self (s : Store) (k : String) (v : CachedResponse) :
    storeGet (storeSet s k v) k = some v := by
  simp [storeSet, storeGet]

/-- A concrete business used by the concrete witnesses below. -/
def sampleBusiness : YelpBusiness :=
  ⟨ "r0", "Cafe Uno", none, 4, [], none, ⟨ "SF", "1 Main St"⟩⟩

/-! ### Claim theorems -/

/-- C5: classification returns `FACTUAL` iff the lowercased question contains
one of the fixed keywords (hours, open, close, menu, reservation, phone,
address, dietary, vegetarian, vegan, gluten) as a substring, and
`CONVERSATIONAL` otherwise; in particular `classify "What are the hours?" =
FACTUAL` and `classify "Is this place good for a date?" =
CONVERSATIONAL`. -/
theorem C5_classify (q : String) :
    (classify q = Classification.FACTUAL
       ↔ (factualKeywords.any fun k => strIncludes (jsToLower q) k) = true)
    ∧ classify "What are the hours?" = Classification.FACTUAL
    ∧ classify "Is this place good for a date?" = Classification.CONVERSATIONAL := by
  refine ⟨?_, by decide, by decide⟩
  cases h : needsYelpData q with
  | false =>
      have h2 : (factualKeywords.any fun k => strIncludes (jsToLower q) k) = false := h
      simp [classify, h, h2]
  | true =>
      have h2 : (factualKeywords.any fun k => strIncludes (jsToLower q) k) = true := h
      simp [classify, h, h2]

/-- C3: with user preferences absent, `generateWhyThisTable` returns exactly
the fixed generic string and issues no provider call, for every storage
state, clock value, provider behaviour (including an always-failing one) and
cache-write outcome; the function is total, so it never throws. -/
theorem C3_whyThisTable_no_preferences (restaurant : YelpBusiness)
    (providerResult : ProviderResult) (writeOk : Bool) (now : Nat)
    (store : Store) :
    generateWhyThisTable restaurant none providerResult writeOk now store
      = ( "Based on your preferences", store, 0) := rfl

/-- C2: for an entry written at time `T`, a read at time `t` with
`t - T > TTL` (24 h in ms) returns absent and deletes the stored record,
while a read with `t - T ≤ TTL` returns the cached value and leaves the
store unchanged; expiry is decided entirely by this read. -/
theorem C2_ttl (store : Store) (rid qt v : String) (T t : Nat) :
    (t - T > CACHE_EXPIRY_MS →
        getCachedAIResponse (cacheAIResponse store rid qt v true T) rid qt t
          = (none, storeRemove (cacheAIResponse store rid qt v true T)
               (getCacheKey rid qt))
        ∧ storeGet
            (getCachedAIResponse (cacheAIResponse store rid qt v true T) rid qt t).2
            (getCacheKey rid qt) = none)
    ∧ (t - T ≤ CACHE_EXPIRY_MS →
        getCachedAIResponse (cacheAIResponse store rid qt v true T) rid qt t
          = (some v, cacheAIResponse store rid qt v true T)) := by
  have hget : storeGet (cacheAIResponse store rid qt v true T) (getCacheKey rid qt)
      = some ⟨v, T⟩ := by
    simp [cacheAIResponse, storeGet_storeSet_self]
  constructor
  · intro h
    refine ⟨?_, ?_⟩
    · simp [getCachedAIResponse, hget, h]
    · simp [getCachedAIResponse, hget, h, storeGet_storeRemove]
  · intro h
    simp [getCachedAIResponse, hget, Nat.not_lt.mpr h]

/-- Witness for C2 at a concrete store, key and clock. -/
theorem C2_ttl_witness :
    (getCachedAIResponse (cacheAIResponse [] "r" "q" "v" true 0) "r" "q" 86400001
        = (none, storeRemove (cacheAIResponse [] "r" "q" "v" true 0)
             (getCacheKey "r" "q"))
      ∧ storeGet
          (getCachedAIResponse (cacheAIResponse [] "r" "q" "v" true 0) "r" "q" 86400001).2
          (getCacheKey "r" "q") = none)
    ∧ getCachedAIResponse (cacheAIResponse [] "r" "q" "v" true 0) "r" "q" 86400000
        = (some "v", cacheAIResponse [] "r" "q" "v" true 0) :=
  ⟨(C2_ttl [] "r" "q" "v" 0 86400001).1 (by decide),
   (C2_ttl [] "r" "q" "v" 0 86400000).2 (by decide)⟩

/-- C9 counterexample: the choice between the two fixed strings is not a
function of whether a vibe is selected in the draft — a draft with the
`drinks` vibe selected yields the same string as a draft with no vibe at
all, while a draft with the `quickBite` vibe selected yields the other
string. -/
theorem C9_counterexample :
    generatePlanCopilotFallback .makeGroupFriendly sampleBusiness
        (some ⟨none, some .drinks⟩)
      = generatePlanCopilotFallback .makeGroupFriendly sampleBusiness none
    ∧ generatePlanCopilotFallback .makeGroupFriendly sampleBusiness
        (some ⟨none, some .quickBite⟩)
      ≠ generatePlanCopilotFallback .makeGroupFriendly sampleBusiness
          (some ⟨none, some .drinks⟩) := by
  decide

/-- C9 (amended): the `make-group-friendly` fallback returns one of exactly
two fixed strings, and which one is determined by whether the draft's
selected vibe is `quickBite` — "Perfect for groups - quick and casual"
exactly when `currentPlan?.vibe` is `quickBite`, "Great for groups -
spacious and welcoming" in every other case (other vibe or no vibe). -/
theorem C9_make_group_friendly (restaurant : YelpBusiness)
    (currentPlan : Option CurrentPlan) :
    (generatePlanCopilotFallback .makeGroupFriendly restaurant currentPlan
        = "Perfect for groups - quick and casual"
      ∨ generatePlanCopilotFallback .makeGroupFriendly restaurant currentPlan
        = "Great for groups - spacious and welcoming")
    ∧ generatePlanCopilotFallback .makeGroupFriendly restaurant currentPlan
        = (if currentPlan.bind CurrentPlan.vibe = some Vibe.quickBite
           then "Perfect for groups - quick and casual"
           else "Great for groups - spacious and welcoming") := by
  constructor
  · by_cases h : currentPlan.bind CurrentPlan.vibe = some Vibe.quickBite
    · exact Or.inl (by simp [generatePlanCopilotFallback, h])
    · exact Or.inr (by simp [generatePlanCopilotFallback, h])
  · rfl

/-- After writing the empty string to a key, a later read of that key is
JS-falsy: either the entry expired (absent) or it holds the empty string. -/
theorem truthy_get_after_empty_put (s : Store) (rid qt : String) (t1 t2 : Nat) :
    truthy (getCachedAIResponse (cacheAIResponse s rid qt "" true t1) rid qt t2).1
      = false := by
  have hget : storeGet (cacheAIResponse s rid qt "" true t1) (getCacheKey rid qt)
      = some ⟨ "", t1⟩ := by
    simp [cacheAIResponse, storeGet_storeSet_self]
  by_cases h2 : t2 - t1 > CACHE_EXPIRY_MS <;>
    simp [getCachedAIResponse, hget, h2, truthy]

/-- C1 counterexample: a resolve that succeeds via the provider with the
empty string caches that value, yet the immediately following resolve for
the same `(entityId, kind)` issues another provider call (1, not 0) and
returns the new provider value instead of the cached one. -/
theorem C1_counterexample :
    (generatePlanCopilot .suggestTimes sampleBusiness none (.ok "") true 0 []).1 = ""
    ∧ storeGet
        (generatePlanCopilot .suggestTimes sampleBusiness none (.ok "") true 0 []).2.1
        (getCacheKey "r0" "plan_copilot_suggest-times") = some ⟨ "", 0⟩
    ∧ (generatePlanCopilot .suggestTimes sampleBusiness none (.ok "x") true 0
        (generatePlanCopilot .suggestTimes sampleBusiness none (.ok "") true 0 []).2.1).2.2
      = 1
    ∧ (generatePlanCopilot .suggestTimes sampleBusiness none (.ok "x") true 0
        (generatePlanCopilot .suggestTimes sampleBusiness none (.ok "") true 0 []).2.1).1
      = "x" := by
  decide

/-- A cache hit: when the stored entry for the plan-copilot key holds a
non-empty value that has not expired, `generatePlanCopilot` returns it with
zero provider calls and an unchanged store. -/
theorem generatePlanCopilot_hit (action : PlanAction) (restaurant : YelpBusiness)
    (currentPlan : Option CurrentPlan) (p : ProviderResult) (w : Bool)
    (v : String) (t1 t2 : Nat) (s : Store)
    (hget : storeGet s
        (getCacheKey restaurant.id ( "plan_copilot_" ++ planActionKey action))
      = some ⟨v, t1⟩)
    (hv : v ≠ "") (hfresh : t2 - t1 ≤ CACHE_EXPIRY_MS) :
    generatePlanCopilot action restaurant currentPlan p w t2 s = (v, s, 0) := by
  have hres : getCachedAIResponse s restaurant.id
      ( "plan_copilot_" ++ planActionKey action) t2 = (some v, s) := by
    simp only [getCachedAIResponse, hget]
    rw [if_neg (Nat.not_lt.mpr hfresh)]
  simp [generatePlanCopilot, hres, truthy, hv]

/-- C1 (amended): if a resolve call misses the cache and succeeds via the
provider with a non-empty value, and the cache write succeeds, then a second
resolve call for the same `(entityId, kind)` made before TTL expiry returns
the same value from the cache and issues zero additional provider calls. -/
theorem C1_cached_idempotent (action : PlanAction) (restaurant : YelpBusiness)
    (currentPlan : Option CurrentPlan) (v : String) (p2 : ProviderResult)
    (t1 t2 : Nat) (store : Store)
    (hmiss : truthy (getCachedAIResponse store restaurant.id
        ( "plan_copilot_" ++ planActionKey action) t1).1 = false)
    (hv : v ≠ "")
    (hfresh : t2 - t1 ≤ CACHE_EXPIRY_MS) :
    (generatePlanCopilot action restaurant currentPlan (.ok v) true t1 store).1 = v
    ∧ generatePlanCopilot action restaurant currentPlan p2 true t2
        (generatePlanCopilot action restaurant currentPlan (.ok v) true t1 store).2.1
      = (v,
         (generatePlanCopilot action restaurant currentPlan (.ok v) true t1 store).2.1,
         0) := by
  have h1 : generatePlanCopilot action restaurant currentPlan (.ok v) true t1 store
      = (v,
         cacheAIResponse
           (getCachedAIResponse store restaurant.id
             ( "plan_copilot_" ++ planActionKey action) t1).2
           restaurant.id ( "plan_copilot_" ++ planActionKey action) v true t1,
         1) := by
    simp [generatePlanCopilot, hmiss]
  have hget : storeGet
      (cacheAIResponse
        (getCachedAIResponse store restaurant.id
          ( "plan_copilot_" ++ planActionKey action) t1).2
        restaurant.id ( "plan_copilot_" ++ planActionKey action) v true t1)
      (getCacheKey restaurant.id ( "plan_copilot_" ++ planActionKey action))
      = some ⟨v, t1⟩ := by
    simp [cacheAIResponse, storeGet_storeSet_self]
  refine ⟨by rw [h1], ?_⟩
  rw [h1]
  exact generatePlanCopilot_hit action restaurant currentPlan p2 true v t1 t2 _
    hget hv hfresh

/-- Witness for C1 (amended) at concrete inputs. -/
theorem C1_cached_idempotent_witness :
    (generatePlanCopilot .suggestTimes sampleBusiness none (.ok "x") true 0 []).1 = "x"
    ∧ generatePlanCopilot .suggestTimes sampleBusiness none .err true 86400000
        (generatePlanCopilot .suggestTimes sampleBusiness none (.ok "x") true 0 []).2.1
      = ("x",
         (generatePlanCopilot .suggestTimes sampleBusiness none (.ok "x") true 0 []).2.1,
         0) :=
  C1_cached_idempotent .suggestTimes sampleBusiness none "x" .err 0 86400000 []
    (by decide) (by decide) (by decide)

/-- C8: a failing cache write is swallowed — after a successful provider
call on a cache miss, `generateWhyThisTable` returns the freshly computed
value whatever the write outcome, a failed write leaves the store exactly as
the read left it, and `cacheAIResponse` with a failing store write returns
(never raises) with the store unchanged, for every key and value. -/
theorem C8_cache_write_failure (restaurant : YelpBusiness)
    (prefs : UserPreferences) (v : String) (writeOk : Bool) (now : Nat)
    (store : Store) (rid qt w : String) (t : Nat) (s2 : Store)
    (hmiss : truthy (getCachedAIResponse store restaurant.id "why_this_table" now).1
      = false) :
    (generateWhyThisTable restaurant (some prefs) (.ok v) writeOk now store).1 = v
    ∧ (generateWhyThisTable restaurant (some prefs) (.ok v) false now store).2.1
        = (getCachedAIResponse store restaurant.id "why_this_table" now).2
    ∧ cacheAIResponse s2 rid qt w false t = s2 := by
  refine ⟨?_, ?_, rfl⟩
  · simp [generateWhyThisTable, hmiss]
  · simp [generateWhyThisTable, hmiss, cacheAIResponse]

/-- Witness for C8 at concrete inputs. -/
theorem C8_cache_write_failure_witness :
    (generateWhyThisTable sampleBusiness (some ⟨[], [], []⟩) (.ok "fresh") false 0 []).1
      = "fresh"
    ∧ (generateWhyThisTable sampleBusiness (some ⟨[], [], []⟩) (.ok "fresh") false 0 []).2.1
        = (getCachedAIResponse [] sampleBusiness.id "why_this_table" 0).2
    ∧ cacheAIResponse [] "rid" "qt" "w" false 7 = [] :=
  C8_cache_write_failure sampleBusiness ⟨[], [], []⟩ "fresh" false 0 []
    "rid" "qt" "w" 7 [] (by decide)

/-- C10: when the provider returns the empty string on a cache miss, the
empty string is written to the cache, yet every subsequent resolve call for
that `(entityId, kind)` misses and invokes the provider again; in general
the cache-hit fast path (zero provider calls) is taken exactly when the
cached value is a truthy (non-empty) string — both for `generatePlanCopilot`
and for `generateTableStarter`. -/
theorem C10_empty_value_never_hits (action : PlanAction)
    (restaurant : YelpBusiness) (currentPlan : Option CurrentPlan)
    (p2 p3 : ProviderResult) (w2 w3 : Bool) (t1 t2 t3 : Nat)
    (store s3 : Store) (prefs3 : Option UserPreferences)
    (hmiss : truthy (getCachedAIResponse store restaurant.id
        ( "plan_copilot_" ++ planActionKey action) t1).1 = false) :
    storeGet
        (generatePlanCopilot action restaurant currentPlan (.ok "") true t1 store).2.1
        (getCacheKey restaurant.id ( "plan_copilot_" ++ planActionKey action))
      = some ⟨ "", t1⟩
    ∧ (generatePlanCopilot action restaurant currentPlan p2 w2 t2
        (generatePlanCopilot action restaurant currentPlan (.ok "") true t1 store).2.1).2.2
      = 1
    ∧ (generatePlanCopilot action restaurant currentPlan p3 w3 t3 s3).2.2
        = (if truthy (getCachedAIResponse s3 restaurant.id
              ( "plan_copilot_" ++ planActionKey action) t3).1
           then 0 else 1)
    ∧ (generateTableStarter restaurant prefs3 p3 w3 t3 s3).2.2
        = (if truthy (getCachedAIResponse s3 restaurant.id "table_starter_invite" t3).1
           then 0 else 1) := by
  have h1 : generatePlanCopilot action restaurant currentPlan (.ok "") true t1 store
      = ( "",
         cacheAIResponse
           (getCachedAIResponse store restaurant.id
             ( "plan_copilot_" ++ planActionKey action) t1).2
           restaurant.id ( "plan_copilot_" ++ planActionKey action) "" true t1,
         1) := by
    simp [generatePlanCopilot, hmiss]
  refine ⟨?_, ?_, ?_, ?_⟩
  · rw [h1]
    simp [cacheAIResponse, storeGet_storeSet_self]
  · rw [h1]
    cases hfalsy : truthy (getCachedAIResponse
        (cacheAIResponse
          (getCachedAIResponse store restaurant.id
            ( "plan_copilot_" ++ planActionKey action) t1).2
          restaurant.id ( "plan_copilot_" ++ planActionKey action) "" true t1)
        restaurant.id ( "plan_copilot_" ++ planActionKey action) t2).1 with
    | false => cases p2 <;> simp [generatePlanCopilot, hfalsy]
    | true => rw [truthy_get_after_empty_put] at hfalsy; exact absurd hfalsy (by simp)
  · cases hfalsy : truthy (getCachedAIResponse s3 restaurant.id
        ( "plan_copilot_" ++ planActionKey action) t3).1 with
    | false => cases p3 <;> simp [generatePlanCopilot, hfalsy]
    | true => simp [generatePlanCopilot, hfalsy]
  · cases hfalsy : truthy (getCachedAIResponse s3 restaurant.id
        "table_starter_invite" t3).1 with
    | false => cases p3 <;> simp [generateTableStarter, hfalsy]
    | true => simp [generateTableStarter, hfalsy]

/-- Witness for C10 at concrete inputs. -/
theorem C10_empty_value_never_hits_witness :
    storeGet
        (generatePlanCopilot .draftInvite sampleBusiness none (.ok "") true 0 []).2.1
        (getCacheKey sampleBusiness.id ( "plan_copilot_" ++ planActionKey .draftInvite))
      = some ⟨ "", 0⟩
    ∧ (generatePlanCopilot .draftInvite sampleBusiness none (.ok "y") true 9
        (generatePlanCopilot .draftInvite sampleBusiness none (.ok "") true 0 []).2.1).2.2
      = 1
    ∧ (generatePlanCopilot .draftInvite sampleBusiness none (.ok "z") false 3 []).2.2
        = (if truthy (getCachedAIResponse [] sampleBusiness.id
              ( "plan_copilot_" ++ planActionKey .draftInvite) 3).1
           then 0 else 1)
    ∧ (generateTableStarter sampleBusiness none (.ok "z") false 3 []).2.2
        = (if truthy (getCachedAIResponse [] sampleBusiness.id "table_starter_invite" 3).1
           then 0 else 1) :=
  C10_empty_value_never_hits .draftInvite sampleBusiness none (.ok "y") (.ok "z")
    true false 0 9 3 [] [] none (by decide)

/-- A successful turn: when the primary provider resolves, the user message
and the final assistant message are appended to the transcript, the two
turns are appended to the provider-facing history, and the full record is
persisted exactly when the write succeeds. -/
theorem handleSendMessage_ok (st : ScreenState) (restaurant : YelpBusiness)
    (q A : String) (yelp : String → ProviderResult) (persistOk : Bool)
    (now : Nat) (hq : jsTrim q = q) (hq2 : q ≠ "") :
    (handleSendMessage st restaurant q (.ok A) yelp persistOk now).1
      = ⟨st.messages
           ++ [⟨toString now, .user, q, now⟩,
               ⟨toString (now + 1), .assistant,
                turnFinalText restaurant q A yelp, now⟩],
         st.conversationHistory
           ++ [⟨.user, q⟩, ⟨.assistant, turnFinalText restaurant q A yelp⟩],
         if persistOk then
           some ⟨st.conversationHistory
                   ++ [⟨.user, q⟩,
                       ⟨.assistant, turnFinalText restaurant q A yelp⟩],
                 st.messages
                   ++ [⟨toString now, .user, q, now⟩,
                       ⟨toString (now + 1), .assistant,
                        turnFinalText restaurant q A yelp, now⟩],
                 now⟩
         else st.persisted⟩ := by
  simp only [handleSendMessage, hq]
  rw [if_neg hq2]
  cases hcl : needsYelpData q with
  | false => simp [chatWithRestaurant, chatWithGroq, turnFinalText, hcl]
  | true =>
      cases hy : yelp ( "About " ++ restaurant.name ++ ": " ++ q) with
      | ok B =>
          simp [chatWithRestaurant, chatWithGroq, getRestaurantFacts,
            turnFinalText, hcl, hy]
      | err =>
          simp [chatWithRestaurant, chatWithGroq, getRestaurantFacts,
            turnFinalText, hcl, hy]

/-- C4: in a turn whose primary call succeeds with `A` and whose question
classifies as factual, a successful secondary call returning `B` makes `B`
the turn's final assistant content, while a failing secondary call leaves
the already-successful primary text `A` as the final content. -/
theorem C4_supersession (st : ScreenState) (restaurant : YelpBusiness)
    (q A B : String) (yelpOk yelpErr : String → ProviderResult)
    (persistOk : Bool) (now : Nat)
    (hq : jsTrim q = q) (hq2 : q ≠ "")
    (hfact : needsYelpData q = true)
    (hA : jsTrim A = A)
    (hB : yelpOk ( "About " ++ restaurant.name ++ ": " ++ q) = .ok B)
    (hE : yelpErr ( "About " ++ restaurant.name ++ ": " ++ q) = .err) :
    (handleSendMessage st restaurant q (.ok A) yelpOk persistOk now).1.conversationHistory
      = st.conversationHistory ++ [⟨.user, q⟩, ⟨.assistant, B⟩]
    ∧ (handleSendMessage st restaurant q (.ok A) yelpErr persistOk now).1.conversationHistory
      = st.conversationHistory ++ [⟨.user, q⟩, ⟨.assistant, A⟩] := by
  constructor
  · rw [handleSendMessage_ok st restaurant q A yelpOk persistOk now hq hq2]
    simp [turnFinalText, hfact, hB]
  · rw [handleSendMessage_ok st restaurant q A yelpErr persistOk now hq hq2]
    simp [turnFinalText, hfact, hE, hA]

/-- Witness for C4 at concrete inputs. -/
theorem C4_supersession_witness :
    (handleSendMessage (initializeChat none "Cafe Uno" 1) sampleBusiness
        "What are the hours?" (.ok "A") (fun _ => .ok "B") true 5).1.conversationHistory
      = (initializeChat none "Cafe Uno" 1).conversationHistory
          ++ [⟨.user, "What are the hours?"⟩, ⟨.assistant, "B"⟩]
    ∧ (handleSendMessage (initializeChat none "Cafe Uno" 1) sampleBusiness
        "What are the hours?" (.ok "A") (fun _ => .err) true 5).1.conversationHistory
      = (initializeChat none "Cafe Uno" 1).conversationHistory
          ++ [⟨.user, "What are the hours?"⟩, ⟨.assistant, "A"⟩] :=
  C4_supersession (initializeChat none "Cafe Uno" 1) sampleBusiness
    "What are the hours?" "A" "B" (fun _ => .ok "B") (fun _ => .err) true 5
    (by decide) (by decide) (by decide) (by decide) rfl rfl

/-- C6: when the primary provider fails, the secondary is attempted with
exactly the reformulated prompt `About <name>: <question>`; when it also
fails, exactly one static error message follows the user's message in the
UI transcript and the turn aborts with the in-memory history and the
persisted record untouched. -/
theorem C6_total_failure (st : ScreenState) (restaurant : YelpBusiness)
    (q : String) (yelp : String → ProviderResult) (persistOk : Bool)
    (now : Nat) (hq : jsTrim q = q) (hq2 : q ≠ "")
    (hsec : yelp ( "About " ++ restaurant.name ++ ": " ++ q) = .err) :
    handleSendMessage st restaurant q .err yelp persistOk now
      = (⟨st.messages ++ [⟨toString now, .user, q, now⟩, errorChatMessage now],
          st.conversationHistory, st.persisted⟩,
         [.groq (⟨.system,
              restaurantContext restaurant.name (restaurantDataOf restaurant)⟩
            :: (st.conversationHistory ++ [⟨.user, q⟩])),
          .yelp ( "About " ++ restaurant.name ++ ": " ++ q)]) := by
  simp only [handleSendMessage, hq]
  rw [if_neg hq2]
  simp [chatWithRestaurant, chatWithGroq, hsec]

/-- Witness for C6 at concrete inputs. -/
theorem C6_total_failure_witness :
    handleSendMessage (initializeChat none "Cafe Uno" 1) sampleBusiness
        "good spot?" .err (fun _ => .err) true 5
      = (⟨(initializeChat none "Cafe Uno" 1).messages
            ++ [⟨toString 5, .user, "good spot?", 5⟩, errorChatMessage 5],
          (initializeChat none "Cafe Uno" 1).conversationHistory,
          (initializeChat none "Cafe Uno" 1).persisted⟩,
         [.groq (⟨.system,
              restaurantContext sampleBusiness.name (restaurantDataOf sampleBusiness)⟩
            :: ((initializeChat none "Cafe Uno" 1).conversationHistory
                 ++ [⟨.user, "good spot?"⟩])),
          .yelp ( "About " ++ sampleBusiness.name ++ ": " ++ "good spot?")]) :=
  C6_total_failure (initializeChat none "Cafe Uno" 1) sampleBusiness
    "good spot?" (fun _ => .err) true 5 (by decide) (by decide) rfl

/-- C7: after a fresh session start (no prior record) and two successful
turns, the persisted history is exactly `[user1, assistant1, user2,
assistant2]` and the persisted transcript is the welcome message followed by
the four rendered messages; when a prior record with messages exists,
session start hydrates state from it without seeding the welcome message,
and the two turns append to the prior history. -/
theorem C7_conversation_ordering (restaurant : YelpBusiness)
    (q1 q2 A1 A2 : String) (yelp1 yelp2 : String → ProviderResult)
    (record : ConversationRecord) (n0 n1 n2 : Nat)
    (hq1 : jsTrim q1 = q1) (hq1b : q1 ≠ "")
    (hq2 : jsTrim q2 = q2) (hq2b : q2 ≠ "")
    (hrec : record.messages ≠ []) :
    (handleSendMessage
        (handleSendMessage (initializeChat none restaurant.name n0) restaurant
          q1 (.ok A1) yelp1 true n1).1
        restaurant q2 (.ok A2) yelp2 true n2).1.persisted
      = some
          ⟨[⟨.user, q1⟩, ⟨.assistant, turnFinalText restaurant q1 A1 yelp1⟩,
            ⟨.user, q2⟩, ⟨.assistant, turnFinalText restaurant q2 A2 yelp2⟩],
           [welcomeMessage restaurant.name n0,
            ⟨toString n1, .user, q1, n1⟩,
            ⟨toString (n1 + 1), .assistant,
             turnFinalText restaurant q1 A1 yelp1, n1⟩,
            ⟨toString n2, .user, q2, n2⟩,
            ⟨toString (n2 + 1), .assistant,
             turnFinalText restaurant q2 A2 yelp2, n2⟩],
           n2⟩
    ∧ (handleSendMessage
        (handleSendMessage (initializeChat (some record) restaurant.name n0)
          restaurant q1 (.ok A1) yelp1 true n1).1
        restaurant q2 (.ok A2) yelp2 true n2).1.persisted
      = some
          ⟨record.history
             ++ [⟨.user, q1⟩, ⟨.assistant, turnFinalText restaurant q1 A1 yelp1⟩,
                 ⟨.user, q2⟩, ⟨.assistant, turnFinalText restaurant q2 A2 yelp2⟩],
           record.messages
             ++ [⟨toString n1, .user, q1, n1⟩,
                 ⟨toString (n1 + 1), .assistant,
                  turnFinalText restaurant q1 A1 yelp1, n1⟩,
                 ⟨toString n2, .user, q2, n2⟩,
                 ⟨toString (n2 + 1), .assistant,
                  turnFinalText restaurant q2 A2 yelp2, n2⟩],
           n2⟩
    ∧ initializeChat (some record) restaurant.name n0
      = ⟨record.messages, record.history, some record⟩ := by
  have hinit : initializeChat (some record) restaurant.name n0
      = ⟨record.messages, record.history, some record⟩ := by
    simp [initializeChat, List.length_pos.mpr hrec]
  refine ⟨?_, ?_, hinit⟩
  · rw [show initializeChat none restaurant.name n0
        = ⟨[welcomeMessage restaurant.name n0], [], none⟩ from rfl]
    rw [handleSendMessage_ok _ restaurant q1 A1 yelp1 true n1 hq1 hq1b]
    rw [handleSendMessage_ok _ restaurant q2 A2 yelp2 true n2 hq2 hq2b]
    simp
  · rw [hinit]
    rw [handleSendMessage_ok _ restaurant q1 A1 yelp1 true n1 hq1 hq1b]
    rw [handleSendMessage_ok _ restaurant q2 A2 yelp2 true n2 hq2 hq2b]
    simp

/-- A concrete prior conversation record used by the C7 witness. -/
def sampleRecord : ConversationRecord :=
  ⟨[⟨.user, "old"⟩, ⟨.assistant, "resp"⟩],
   [⟨ "10", .user, "old", 10⟩, ⟨ "11", .assistant, "resp", 10⟩],
   10⟩

/-- Witness for C7 at concrete inputs. -/
theorem C7_conversation_ordering_witness :
    (handleSendMessage
        (handleSendMessage (initializeChat none sampleBusiness.name 1)
          sampleBusiness "What are the hours?" (.ok "A1") (fun _ => .ok "B") true 5).1
        sampleBusiness "good spot?" (.ok "A2") (fun _ => .err) true 8).1.persisted
      = some
          ⟨[⟨.user, "What are the hours?"⟩,
            ⟨.assistant, turnFinalText sampleBusiness "What are the hours?" "A1"
                (fun _ => .ok "B")⟩,
            ⟨.user, "good spot?"⟩,
            ⟨.assistant, turnFinalText sampleBusiness "good spot?" "A2"
                (fun _ => .err)⟩],
           [welcomeMessage sampleBusiness.name 1,
            ⟨toString 5, .user, "What are the hours?", 5⟩,
            ⟨toString (5 + 1), .assistant,
             turnFinalText sampleBusiness "What are the hours?" "A1"
               (fun _ => .ok "B"), 5⟩,
            ⟨toString 8, .user, "good spot?", 8⟩,
            ⟨toString (8 + 1), .assistant,
             turnFinalText sampleBusiness "good spot?" "A2" (fun _ => .err), 8⟩],
           8⟩
    ∧ (handleSendMessage
        (handleSendMessage (initializeChat (some sampleRecord) sampleBusiness.name 1)
          sampleBusiness "What are the hours?" (.ok "A1") (fun _ => .ok "B") true 5).1
        sampleBusiness "good spot?" (.ok "A2") (fun _ => .err) true 8).1.persisted
      = some
          ⟨sampleRecord.history
             ++ [⟨.user, "What are the hours?"⟩,
                 ⟨.assistant, turnFinalText sampleBusiness "What are the hours?" "A1"
                     (fun _ => .ok "B")⟩,
                 ⟨.user, "good spot?"⟩,
                 ⟨.assistant, turnFinalText sampleBusiness "good spot?" "A2"
                     (fun _ => .err)⟩],
           sampleRecord.messages
             ++ [⟨toString 5, .user, "What are the hours?", 5⟩,
                 ⟨toString (5 + 1), .assistant,
                  turnFinalText sampleBusiness "What are the hours?" "A1"
                    (fun _ => .ok "B"), 5⟩,
                 ⟨toString 8, .user, "good spot?", 8⟩,
                 ⟨toString (8 + 1), .assistant,
                  turnFinalText sampleBusiness "good spot?" "A2" (fun _ => .err), 8⟩],
           8⟩
    ∧ initializeChat (some sampleRecord) sampleBusiness.name 1
      = ⟨sampleRecord.messages, sampleRecord.history, some sampleRecord⟩ :=
  C7_conversation_ordering sampleBusiness "What are the hours?" "good spot?"
    "A1" "A2" (fun _ => .ok "B") (fun _ => .err) sampleRecord 1 5 8
    (by decide) (by decide) (by decide) (by decide) (by decide)

end TableTalk
